import Mathlib

/-!
Shallow embedding of the PhotoShare authentication/token core
(`src/auth/service.py`, `src/auth/routes.py`, `src/userprofile/orm.py`).

Timestamps are integers (POSIX seconds); Python `timedelta` durations are
integers in seconds.  A JWT is modelled as its decoded payload together with
the key/algorithm pair it was signed with: signature verification by a
key/algorithm pair succeeds exactly when the token was signed with that same
pair (ideal-signature abstraction of `jose.jwt`).  `jose.jwt.decode` with
default options additionally rejects a token whose `exp` is strictly less
than the current time (leeway 0), and accepts `exp == now`.
-/

namespace PhotoShare

/-- The two configured key/algorithm pairs of `Authentication`:
`(SECRET_256, ACCESS_ALGORITHM)` for access/email tokens and
`(SECRET_512, REFRESH_ALGORITHM)` for refresh tokens.  The configuration
supplies two distinct pairs, so the embedding uses two distinct
constructors. -/
inductive KeyAlg where
  | access256 : KeyAlg
  | refresh512 : KeyAlg
deriving DecidableEq, Repr

/-- The JWT claims dictionary built by `Authentication.create_token`:
`{"sub": sub, "iat": iat, "exp": expiration_time, "scope": scope}`.
`sub` is optional because a foreign token may omit the claim
(`payload.get("sub")` can return `None`); `scope` is the raw string. -/
structure Payload where
  sub : Option String
  iat : Int
  exp : Int
  scope : String
deriving DecidableEq, Repr

/-- A signed token: its payload plus the key/algorithm pair used by
`jwt.encode`. -/
structure RawToken where
  payload : Payload
  signedWith : KeyAlg
deriving DecidableEq, Repr

/-- Embedding of `jose.jwt.decode(token, key, algorithms=[algorithm])` at
current time `now`: signature verification requires the pair to match, and
the default `verify_exp` option raises `ExpiredSignatureError` when
`exp < now` (python-jose compares `exp < now - leeway` with leeway 0). -/
def jwtDecode (t : RawToken) (ka : KeyAlg) (now : Int) : Option Payload :=
  if t.signedWith = ka ∧ ¬ t.payload.exp < now then some t.payload else none

/-- Key/algorithm pair selected from a scope string.  Both the key choice and
the algorithm choice in `create_token` and `get_user` test
`scope in ["access_token", "email_token"]` and fall back to the refresh
pair otherwise. -/
def keyFor (scope : String) : KeyAlg :=
  if scope = "access_token" ∨ scope = "email_token" then .access256 else .refresh512

/-- Embedding of `Authentication.create_token(sub, iat, scope, live_time)`:
`expiration_time = iat + live_time`; payload of the four claims; signed with
the pair selected by `scope`. -/
def create_token (sub : String) (iat : Int) (scope : String) (live_time : Int) :
    RawToken :=
  { payload := { sub := some sub, iat := iat, exp := iat + live_time, scope := scope }
    signedWith := keyFor scope }

/-- Embedding of `Authentication.create_access_token`; its Python default
`live_time = timedelta(days=1)` is the explicit value 86400 seconds. -/
def create_access_token (sub : String) (iat : Int) (live_time : Int) :
    RawToken :=
  create_token sub iat "access_token" live_time

/-- Embedding of `Authentication.create_refresh_token`; passing `none` for
`live_time` uses its Python default
`timedelta(days=int(settings.refresh_exp))`, with the configured
`refresh_exp` (days) passed explicitly. -/
def create_refresh_token (refresh_exp : Int) (sub : String) (iat : Int)
    (live_time : Option Int) : RawToken :=
  create_token sub iat "refresh_token" (live_time.getD (refresh_exp * 86400))

/-- Embedding of `Authentication.create_email_token`; its Python default
`live_time = timedelta(hours=12)` is the explicit value 43200 seconds. -/
def create_email_token (sub : String) (iat : Int) (live_time : Int) :
    RawToken :=
  create_token sub iat "email_token" live_time

/-- A row of the `users` table as the auth service reads it
(`UserORM`): `email` (nullable, unique), `hashed_pwd`, `loggedin`,
`email_confirmed`, and the `is_banned` flag read by
`Authentication.get_user` (also present in the test fixtures). -/
structure UserRec where
  email : Option String
  username : String
  hashed_pwd : String
  loggedin : Bool
  email_confirmed : Bool
  is_banned : Bool
deriving DecidableEq, Repr

/-- A row of the `blacklist_tokens` table as `Authentication.add_to_blacklist`
writes it (`BlackListORM(email, username, token, expire_access,
expire_refresh)`). -/
structure BlackListRec where
  email : Option String
  username : String
  token : RawToken
  expire_access : Int
  expire_refresh : Int
deriving DecidableEq, Repr

/-- The persistent state the auth core touches: the `users` table and the
token blacklist. -/
structure DB where
  users : List UserRec
  blacklist : List BlackListRec
deriving DecidableEq, Repr

/-- Update the first element satisfying `p` (the row a
`select(...).scalars().first()` query returns) by `f`. -/
def updateFirst (p : α → Bool) (f : α → α) : List α → List α
  | [] => []
  | x :: xs => if p x then f x :: xs else x :: updateFirst p f xs

/-- Commit `db_user.loggedin = b` for the first user whose `email` column
equals `email`. -/
def DB.setLoggedin (db : DB) (email : String) (b : Bool) : DB :=
  { db with
    users := updateFirst (fun u => u.email = some email)
      (fun u => { u with loggedin := b }) db.users }

/-- Embedding of `Authentication.is_blacklisted_token(token, db)` at time `now`:
first try to decode the token with the refresh pair; on success, if the
decoded `exp` is truthy, look for a blacklist row whose `expire_refresh`
equals that `exp` and whose `email` equals the decoded `sub` (revocation by
lineage); otherwise, and also when the lineage lookup misses, fall through
to a lookup by raw token equality. -/
def is_blacklisted_token (token : RawToken) (db : DB) (now : Int) : Bool :=
  match jwtDecode token .refresh512 now with
  | some payload =>
      if payload.exp ≠ 0 ∧
         (db.blacklist.find? (fun e : BlackListRec =>
            e.expire_refresh = payload.exp ∧ e.email = payload.sub)).isSome then
        true
      else (db.blacklist.find? (fun e : BlackListRec => e.token = token)).isSome
  | none => (db.blacklist.find? (fun e : BlackListRec => e.token = token)).isSome

/-- The typed failure outcomes of `Authentication.get_user`, in the order the
raises appear in the source: blacklisted (401), JWT decode failure (401),
unknown scope string (401), missing `sub` claim (401), user lookup miss
(404), expired refresh token (401), banned user (403), `loggedin` false
(401). -/
inductive AuthError where
  | tokenBlacklisted : AuthError
  | invalidToken : AuthError
  | invalidScope : AuthError
  | missingSub : AuthError
  | userNotFound : AuthError
  | tokenExpired : AuthError
  | userBanned : AuthError
  | notLoggedIn : AuthError
deriving DecidableEq, Repr

/-- Embedding of `Authentication.get_user(token, db, scope)` at time `now`,
returning the outcome together with the (possibly mutated) database.
The checks run in source order: blacklist lookup; `jwt.decode` with the
key/algorithm pair selected by the *required* `scope` argument; membership
of the decoded `scope` claim in the full three-scope list; presence of the
`sub` claim; user lookup by email; the refresh-expiry branch
(`scope == "refresh_token"` and `int(exp) <= int(now)`), which commits
`loggedin = False` before raising; the `is_banned` check; the `loggedin`
check. -/
def get_user (token : RawToken) (db : DB) (scope : String) (now : Int) :
    Except AuthError UserRec × DB :=
  if is_blacklisted_token token db now then (.error .tokenBlacklisted, db)
  else
    match jwtDecode token (keyFor scope) now with
    | none => (.error .invalidToken, db)
    | some payload =>
      if ¬ (payload.scope = "access_token" ∨ payload.scope = "refresh_token" ∨
            payload.scope = "email_token") then
        (.error .invalidScope, db)
      else
        match payload.sub with
        | none => (.error .missingSub, db)
        | some email =>
          match db.users.find? (fun u => u.email = some email) with
          | none => (.error .userNotFound, db)
          | some db_user =>
            if payload.scope = "refresh_token" ∧ payload.exp ≤ now then
              (.error .tokenExpired, db.setLoggedin email false)
            else if db_user.is_banned then (.error .userBanned, db)
            else if ¬ db_user.loggedin then (.error .notLoggedIn, db)
            else (.ok db_user, db)

/-- Failure outcomes of `Authentication.add_to_blacklist`: the bare
`jwt.decode` call lets a `JWTError` propagate, and the `db.commit()` of a
duplicate raw token violates the blacklist table's unique constraint on
`token` (declared `unique=True` on the `BlacklistORM` token column;
spec §3 states the same uniqueness invariant). -/
inductive RevokeError where
  | jwtError : RevokeError
  | uniqueViolation : RevokeError
deriving DecidableEq, Repr

/-- Embedding of `Authentication.add_to_blacklist(token, email, username, db)` at
time `now` with the configured `refresh_exp` (days): decode the token with
the access pair (default expiry verification included), compute
`expire_access = exp` and `expire_refresh = iat + refresh_exp days`, and
insert the row.  The insert itself performs no duplicate check; the unique
constraint on the `token` column makes the commit of a duplicate fail. -/
def add_to_blacklist (refresh_exp : Int) (token : RawToken) (email : Option String)
    (username : String) (db : DB) (now : Int) : Except RevokeError DB :=
  match jwtDecode token .access256 now with
  | none => .error .jwtError
  | some payload =>
      if (db.blacklist.find? (fun e : BlackListRec => e.token = token)).isSome then
        .error .uniqueViolation
      else
        .ok { db with
              blacklist := db.blacklist ++
                [{ email := email
                   username := username
                   token := token
                   expire_access := payload.exp
                   expire_refresh := payload.iat + refresh_exp * 86400 }] }

/-- The `/auth/logout` route: resolve the user through
`auth_service.get_access_user` (i.e. `get_user` with required scope
`"access_token"`), then set `user.loggedin = False` and commit.  The route
never calls `add_to_blacklist`. -/
def logout (token : RawToken) (db : DB) (now : Int) : Except AuthError Unit × DB :=
  match get_user token db "access_token" now with
  | (.error e, db') => (.error e, db')
  | (.ok db_user, db') =>
      match db_user.email with
      | some email => (.ok (), db'.setLoggedin email false)
      | none => (.ok (), db')

/-- Failure outcome of the `/auth/login` route.  The route's first
statement raises `AttributeError`, so this is its only reachable result. -/
inductive LoginError where
  | attributeErrorUnawaitedCoroutine : LoginError
deriving DecidableEq, Repr

/-- The `/auth/login` route.  Its first statement,
`user_db = await db.execute(select(UserORM).filter(...)).scalars().first()`,
binds the `await` to the whole call chain, so `.scalars()` is invoked on the
un-awaited coroutine returned by `db.execute(...)` and raises
`AttributeError` on every request — before the 404 lookup-miss branch, the
password check, the email-confirmed check, and the
`create_access_token(user.email)` call (which would itself raise `TypeError`
for lack of its required `iat` argument) can run.  The request aborts with
the database unchanged. -/
def login (email password : String) (db : DB) : Except LoginError Unit × DB :=
  (.error .attributeErrorUnawaitedCoroutine, db)

/-- Equality of `Except` results is decidable when both component types
have decidable equality; lets concrete runs of the embedded operations be
checked by `decide`. -/
instance exceptDecEq {ε α : Type} [DecidableEq ε] [DecidableEq α] :
    DecidableEq (Except ε α) := fun a b =>
  match a, b with
  | .error e1, .error e2 =>
      if h : e1 = e2 then isTrue (by rw [h])
      else isFalse (fun hc => h (Except.error.inj hc))
  | .ok v1, .ok v2 =>
      if h : v1 = v2 then isTrue (by rw [h])
      else isFalse (fun hc => h (Except.ok.inj hc))
  | .error _, .ok _ => isFalse (fun hc => Except.noConfusion hc)
  | .ok _, .error _ => isFalse (fun hc => Except.noConfusion hc)

/-! ## Helper lemmas -/

/-- The access/email scope strings select the 256-bit pair. -/
theorem keyFor_access : keyFor "access_token" = .access256 := by decide

/-- The refresh scope string selects the 512-bit pair. -/
theorem keyFor_refresh : keyFor "refresh_token" = .refresh512 := by decide

/-- The email scope string selects the 256-bit pair. -/
theorem keyFor_email : keyFor "email_token" = .access256 := by decide

/-- A successful decode returns the token's own payload, and certifies the
signing pair and the expiry bound. -/
theorem jwtDecode_some {t : RawToken} {ka : KeyAlg} {now : Int} {p : Payload}
    (h : jwtDecode t ka now = some p) :
    p = t.payload ∧ t.signedWith = ka ∧ ¬ t.payload.exp < now := by
  unfold jwtDecode at h
  split at h
  · rename_i hc
    exact ⟨(Option.some.injEq _ _ ▸ h).symm, hc.1, hc.2⟩
  · exact absurd h (by simp)

/-- Decoding fails when the signing pair does not match. -/
theorem jwtDecode_wrong_key {t : RawToken} {ka : KeyAlg} {now : Int}
    (h : t.signedWith ≠ ka) : jwtDecode t ka now = none := by
  unfold jwtDecode
  exact if_neg (fun hc => h hc.1)

/-- Decoding fails when the expiry is strictly past. -/
theorem jwtDecode_expired {t : RawToken} {ka : KeyAlg} {now : Int}
    (h : t.payload.exp < now) : jwtDecode t ka now = none := by
  unfold jwtDecode
  exact if_neg (fun hc => hc.2 h)

end PhotoShare

namespace PhotoShare

/-- Characterisation of a successful `get_user` call: the database is
returned unchanged, and the returned user is the first `users` row whose
email equals the token's `sub` claim. -/
theorem get_user_ok {token : RawToken} {db : DB} {scope : String} {now : Int}
    {db_user : UserRec} {db' : DB}
    (h : get_user token db scope now = (.ok db_user, db')) :
    db' = db ∧ ∃ sub, token.payload.sub = some sub ∧
      db.users.find? (fun u : UserRec => u.email = some sub) = some db_user ∧
      db_user.email = some sub := by
  unfold get_user at h
  split at h
  · exact absurd h (by simp)
  · split at h
    · exact absurd h (by simp)
    · rename_i p hp
      split at h
      · exact absurd h (by simp)
      · split at h
        · exact absurd h (by simp)
        · rename_i email hsub
          split at h
          · exact absurd h (by simp)
          · rename_i found hfind
            split at h
            · exact absurd h (by simp)
            · split at h
              · exact absurd h (by simp)
              · split at h
                · exact absurd h (by simp)
                · have h1 : found = db_user := by
                    have hfst := congrArg Prod.fst h
                    simpa using hfst
                  have h2 : db' = db := (congrArg Prod.snd h).symm
                  have hps := (jwtDecode_some hp).1
                  have hmail : db_user.email = some email := by
                    have hpred := List.find?_some hfind
                    rw [h1] at hpred
                    simpa using hpred
                  exact ⟨h2, email, hps ▸ hsub, h1 ▸ hfind, hmail⟩

/-- Running `List.find?` after `updateFirst` with a predicate-preserving update maps
the original result through the update. -/
theorem find?_updateFirst_self {α : Type} (p : α → Bool) (f : α → α) (l : List α)
    (hpf : ∀ x, p x = true → p (f x) = true) :
    (updateFirst p f l).find? p = (l.find? p).map f := by
  induction l with
  | nil => rfl
  | cons x xs ih =>
    unfold updateFirst
    by_cases hx : p x = true
    · rw [if_pos hx, List.find?_cons_of_pos _ (hpf x hx), List.find?_cons_of_pos _ hx]
      rfl
    · rw [if_neg hx, List.find?_cons_of_neg _ hx, List.find?_cons_of_neg _ hx]
      exact ih

/-- The update `setLoggedin` does not touch the blacklist, so revocation lookups are
unchanged by it. -/
theorem is_blacklisted_setLoggedin (token : RawToken) (db : DB) (e : String)
    (b : Bool) (now : Int) :
    is_blacklisted_token token (db.setLoggedin e b) now =
      is_blacklisted_token token db now := rfl

/-! ## C7: encode/decode round trip -/

/-- C7: For every subject, scope in {access, refresh, email} and lifetime,
decoding with that scope's key and algorithm the token produced by encoding
`(subject, now, now + lifetime, scope)` returns the original subject,
issuedAt, expiresAt and scope fields, with `expiresAt - issuedAt` equal to
the lifetime. -/
theorem c7_encode_decode_roundtrip (sub : String) (iat live : Int) (scope : String)
    (hscope : scope = "access_token" ∨ scope = "refresh_token" ∨ scope = "email_token")
    (hlive : 0 ≤ live) :
    jwtDecode (create_token sub iat scope live) (keyFor scope) iat =
      some { sub := some sub, iat := iat, exp := iat + live, scope := scope } ∧
    (iat + live) - iat = live := by
  refine ⟨?_, by omega⟩
  unfold jwtDecode create_token
  rw [if_pos ⟨rfl, by simp; omega⟩]

/-- C7 witness: concrete round trip for an access token with a one-hour
lifetime. -/
theorem c7_witness :
    ((("access_token" : String) = "access_token" ∨
      ("access_token" : String) = "refresh_token" ∨
      ("access_token" : String) = "email_token") ∧ (0 : Int) ≤ 3600) ∧
    (jwtDecode (create_token "user@example.com" 1000 "access_token" 3600)
        (keyFor "access_token") 1000 =
      some { sub := some "user@example.com", iat := 1000, exp := 1000 + 3600,
             scope := "access_token" } ∧
    ((1000 : Int) + 3600) - 1000 = 3600) :=
  ⟨⟨Or.inl rfl, by decide⟩,
   c7_encode_decode_roundtrip "user@example.com" 1000 3600 "access_token"
     (Or.inl rfl) (by decide)⟩

/-! ## C8: cross-scope signature rejection -/

/-- C8: A token encoded under the access/email key-and-algorithm pair never
decodes under the refresh pair, a token encoded under the refresh pair never
decodes under the access/email pair, and no token is accepted by both
verifiers. -/
theorem c8_cross_key_rejection (sub : String) (iat live now : Int) (scope : String) :
    ((scope = "access_token" ∨ scope = "email_token") →
      jwtDecode (create_token sub iat scope live) .refresh512 now = none) ∧
    (scope = "refresh_token" →
      jwtDecode (create_token sub iat scope live) .access256 now = none) ∧
    (∀ t : RawToken,
      ¬ ((jwtDecode t .access256 now).isSome ∧ (jwtDecode t .refresh512 now).isSome)) := by
  refine ⟨?_, ?_, ?_⟩
  · rintro (h | h) <;> subst h <;>
      exact jwtDecode_wrong_key (by simp [create_token, keyFor])
  · rintro h; subst h
    exact jwtDecode_wrong_key (by simp [create_token, keyFor])
  · rintro t ⟨h1, h2⟩
    rw [Option.isSome_iff_exists] at h1 h2
    obtain ⟨p1, h1⟩ := h1
    obtain ⟨p2, h2⟩ := h2
    have k1 := (jwtDecode_some h1).2.1
    have k2 := (jwtDecode_some h2).2.1
    rw [k1] at k2
    exact KeyAlg.noConfusion k2

/-- C8 witness: concrete cross-key rejections for an access token and a
refresh token issued at time 0. -/
theorem c8_witness :
    jwtDecode (create_token "user@example.com" 0 "access_token" 10) .refresh512 0 = none ∧
    jwtDecode (create_token "user@example.com" 0 "refresh_token" 10) .access256 0 = none :=
  ⟨(c8_cross_key_rejection "user@example.com" 0 10 0 "access_token").1 (Or.inl rfl),
   (c8_cross_key_rejection "user@example.com" 0 10 0 "refresh_token").2.1 rfl⟩

/-! ## C10: decoder expiry enforcement preempts the SessionExpired branch -/

/-- C10: For every refresh-scope resolver call with a token whose `exp` is
strictly less than the current time, the call fails at the decoding step with
`invalidToken` and the database (hence the `loggedin` flag) is returned
unmodified — provided the registry holds only access-signed tokens, which is
the invariant its sole writer `add_to_blacklist` maintains.  Moreover the
`tokenExpired` (SessionExpired) outcome is reachable only in the boundary
case where `exp` equals the current integer second, because decoding rejects
a strictly-past `exp` while that branch triggers on `exp ≤ now`. -/
theorem c10_decoder_preempts_expiry_branch
    (db : DB) (token : RawToken) (now : Int)
    (hwf : ∀ e ∈ db.blacklist, e.token.signedWith = .access256)
    (hrt : token.signedWith = .refresh512)
    (hexp : token.payload.exp < now) :
    get_user token db "refresh_token" now = (.error .invalidToken, db) ∧
    (∀ (db₂ db' : DB) (scope : String) (tk : RawToken),
      get_user tk db₂ scope now = (.error .tokenExpired, db') →
        tk.payload.exp = now) := by
  constructor
  · have hdec : jwtDecode token .refresh512 now = none := jwtDecode_expired hexp
    have hraw : db.blacklist.find? (fun e : BlackListRec => e.token = token) = none := by
      apply List.find?_eq_none.mpr
      intro e he
      simp only [decide_eq_true_eq]
      intro hne
      have hsig := hwf e he
      rw [hne, hrt] at hsig
      exact KeyAlg.noConfusion hsig
    have hbl : is_blacklisted_token token db now = false := by
      unfold is_blacklisted_token
      split
      · rename_i p heq
        rw [hdec] at heq
        cases heq
      · rw [hraw]
        rfl
    unfold get_user
    rw [hbl, keyFor_refresh, hdec]
    simp
  · intro db₂ db' scope tk h
    unfold get_user at h
    split at h
    · simp at h
    · split at h
      · simp at h
      · rename_i p hp
        have hd := jwtDecode_some hp
        split at h
        · simp at h
        · split at h
          · simp at h
          · split at h
            · simp at h
            · split at h
              · rename_i hcond
                rw [hd.1] at hcond
                have := hd.2.2
                omega
              · split at h
                · simp at h
                · split at h
                  · simp at h
                  · simp at h

/-- C10 witness: a refresh token expired one second ago fails with
`invalidToken` and the database (with the subject still logged in and one
access-signed blacklist row) is returned unchanged. -/
theorem c10_witness :
    (∀ e ∈ (DB.mk
        [{ email := some "user@example.com", username := "user",
           hashed_pwd := "h", loggedin := true, email_confirmed := true,
           is_banned := false }]
        [{ email := some "other@example.com", username := "other",
           token := create_access_token "other@example.com" 0 86400,
           expire_access := 86400, expire_refresh := 604800 }]).blacklist,
        e.token.signedWith = KeyAlg.access256) ∧
    (create_refresh_token 7 "user@example.com" 0 none).signedWith = KeyAlg.refresh512 ∧
    (create_refresh_token 7 "user@example.com" 0 none).payload.exp < 604801 ∧
    get_user (create_refresh_token 7 "user@example.com" 0 none)
        (DB.mk
          [{ email := some "user@example.com", username := "user",
             hashed_pwd := "h", loggedin := true, email_confirmed := true,
             is_banned := false }]
          [{ email := some "other@example.com", username := "other",
             token := create_access_token "other@example.com" 0 86400,
             expire_access := 86400, expire_refresh := 604800 }])
        "refresh_token" 604801 =
      (.error .invalidToken,
        DB.mk
          [{ email := some "user@example.com", username := "user",
             hashed_pwd := "h", loggedin := true, email_confirmed := true,
             is_banned := false }]
          [{ email := some "other@example.com", username := "other",
             token := create_access_token "other@example.com" 0 86400,
             expire_access := 86400, expire_refresh := 604800 }]) :=
  ⟨by decide, by decide, by decide,
   (c10_decoder_preempts_expiry_branch _ _ 604801 (by decide) (by decide) (by decide)).1⟩

/-! ## C3: revoking an access token also revokes the sibling refresh token -/

/-- C3: After `add_to_blacklist` is called with the raw access token of a
login event (same `issuedAt`, refresh token issued with the configured
refresh lifetime), `is_blacklisted_token` returns true both for that raw
access token and for the sibling refresh token, although no blacklist row
ever stores the refresh token itself.  Hypotheses: the registry held only
access-signed tokens and not yet this one (its writer's invariant), the
access token had not expired when revoked, and the sibling refresh token is
checked while still within its decoding window with a nonzero `exp`. -/
theorem c3_revoke_kills_sibling_refresh
    (refresh_exp : Int) (sub username : String) (iat la now₁ now₂ : Int) (db : DB)
    (hwf : ∀ e ∈ db.blacklist, e.token.signedWith = .access256)
    (hfresh : db.blacklist.find? (fun e : BlackListRec =>
      e.token = create_access_token sub iat la) = none)
    (haccexp : ¬ iat + la < now₁)
    (hrexp : ¬ iat + refresh_exp * 86400 < now₂)
    (hnz : iat + refresh_exp * 86400 ≠ 0) :
    ∃ db',
      add_to_blacklist refresh_exp (create_access_token sub iat la) (some sub)
        username db now₁ = .ok db' ∧
      is_blacklisted_token (create_access_token sub iat la) db' now₂ = true ∧
      is_blacklisted_token (create_refresh_token refresh_exp sub iat none) db' now₂ = true ∧
      ∀ e ∈ db'.blacklist, e.token ≠ create_refresh_token refresh_exp sub iat none := by
  have hsig : (create_access_token sub iat la).signedWith = KeyAlg.access256 :=
    keyFor_access
  have hdec1 : jwtDecode (create_access_token sub iat la) .access256 now₁ =
      some { sub := some sub, iat := iat, exp := iat + la, scope := "access_token" } := by
    unfold create_access_token create_token jwtDecode
    rw [if_pos ⟨keyFor_access, haccexp⟩]
  refine ⟨{ db with blacklist := db.blacklist ++
      [{ email := some sub, username := username,
         token := create_access_token sub iat la,
         expire_access := iat + la,
         expire_refresh := iat + refresh_exp * 86400 }] }, ?_, ?_, ?_, ?_⟩
  · unfold add_to_blacklist
    rw [hdec1]
    simp only [hfresh, Option.isSome_none, Bool.false_eq_true, if_false]
  · unfold is_blacklisted_token
    split
    · rename_i p heq
      have hk : jwtDecode (create_access_token sub iat la) KeyAlg.refresh512 now₂ =
          none := jwtDecode_wrong_key (by rw [hsig]; decide)
      rw [hk] at heq
      cases heq
    · rw [List.find?_isSome]
      exact ⟨_, List.mem_append_right _ (List.mem_singleton.mpr rfl), by simp⟩
  · have hdecr : jwtDecode (create_refresh_token refresh_exp sub iat none) .refresh512 now₂ =
        some { sub := some sub, iat := iat, exp := iat + refresh_exp * 86400,
               scope := "refresh_token" } := by
      unfold create_refresh_token create_token jwtDecode
      rw [if_pos ⟨keyFor_refresh, hrexp⟩]
      rfl
    unfold is_blacklisted_token
    split
    · rename_i p heq
      rw [hdecr] at heq
      injection heq with heq
      subst heq
      rw [if_pos ⟨hnz, List.find?_isSome.mpr
        ⟨_, List.mem_append_right _ (List.mem_singleton.mpr rfl), by simp⟩⟩]
    · rename_i heq
      rw [hdecr] at heq
      cases heq
  · intro e he hne
    have hsigr : (create_refresh_token refresh_exp sub iat none).signedWith =
        KeyAlg.refresh512 := keyFor_refresh
    rw [List.mem_append] at he
    rcases he with he | he
    · have hx := hwf e he
      rw [hne, hsigr] at hx
      cases hx
    · rw [List.mem_singleton] at he
      subst he
      have hcg := congrArg RawToken.signedWith hne
      rw [hsig, hsigr] at hcg
      cases hcg

/-- C3 witness: with a 7-day configured refresh lifetime, revoking the
access token of a login at time 0 makes both siblings blacklisted at time 0,
with the refresh token itself never stored. -/
theorem c3_witness :
    (∀ e ∈ (DB.mk [] []).blacklist, e.token.signedWith = KeyAlg.access256) ∧
    ((DB.mk [] []).blacklist.find? (fun e : BlackListRec =>
      e.token = create_access_token "user@example.com" 0 86400) = none) ∧
    (¬ (0 : Int) + 86400 < 0) ∧ (¬ (0 : Int) + 7 * 86400 < 0) ∧
    ((0 : Int) + 7 * 86400 ≠ 0) ∧
    (∃ db',
      add_to_blacklist 7 (create_access_token "user@example.com" 0 86400)
        (some "user@example.com") "user" (DB.mk [] []) 0 = .ok db' ∧
      is_blacklisted_token (create_access_token "user@example.com" 0 86400) db' 0 = true ∧
      is_blacklisted_token (create_refresh_token 7 "user@example.com" 0 none) db' 0 = true ∧
      ∀ e ∈ db'.blacklist, e.token ≠ create_refresh_token 7 "user@example.com" 0 none) :=
  ⟨by decide, by decide, by decide, by decide, by decide,
   c3_revoke_kills_sibling_refresh 7 "user@example.com" "user" 0 86400 0 0 (DB.mk [] [])
     (by decide) (by decide) (by decide) (by decide) (by decide)⟩

/-! ## C1: order of the resolver's checks -/

/-- C1 counterexample: a blacklisted access token that no longer decodes
(its `exp` is past) yields `tokenBlacklisted`, not `invalidToken` — the
revocation lookup runs before decoding, refuting the claimed
Decoding-before-RevocationCheck order. -/
theorem c1_counterexample :
    jwtDecode (create_access_token "user@example.com" 0 100) (keyFor "access_token") 200 =
      none ∧
    get_user (create_access_token "user@example.com" 0 100)
        (DB.mk
          [{ email := some "user@example.com", username := "user", hashed_pwd := "h",
             loggedin := true, email_confirmed := true, is_banned := false }]
          [{ email := some "user@example.com", username := "user",
             token := create_access_token "user@example.com" 0 100,
             expire_access := 100, expire_refresh := 604800 }])
        "access_token" 200 =
      (.error .tokenBlacklisted,
        DB.mk
          [{ email := some "user@example.com", username := "user", hashed_pwd := "h",
             loggedin := true, email_confirmed := true, is_banned := false }]
          [{ email := some "user@example.com", username := "user",
             token := create_access_token "user@example.com" 0 100,
             expire_access := 100, expire_refresh := 604800 }]) := by
  decide

/-- C1 amended: the resolver checks revocation first, then decoding, so a
revoked token yields `tokenBlacklisted` even when it fails to decode and a
non-revoked undecodable token yields `invalidToken`; and the refresh-expiry
branch runs before the ban check, so a token whose `scope` claim is
`refresh_token` with `exp ≤ now` is never answered with `userBanned`. -/
theorem c1_resolver_order_amended (token : RawToken) (db : DB) (scope : String)
    (now : Int) :
    (is_blacklisted_token token db now = true →
      get_user token db scope now = (.error .tokenBlacklisted, db)) ∧
    (is_blacklisted_token token db now = false →
      jwtDecode token (keyFor scope) now = none →
      get_user token db scope now = (.error .invalidToken, db)) ∧
    (token.payload.scope = "refresh_token" → token.payload.exp ≤ now →
      ∀ db', get_user token db scope now ≠ (.error .userBanned, db')) := by
  refine ⟨?_, ?_, ?_⟩
  · intro h
    unfold get_user
    rw [h, if_pos rfl]
  · intro h hd
    unfold get_user
    rw [h, if_neg (by simp)]
    split
    · rfl
    · rename_i p heq
      rw [hd] at heq
      cases heq
  · intro hs he db' hcontra
    unfold get_user at hcontra
    split at hcontra
    · exact absurd hcontra (by simp)
    · split at hcontra
      · exact absurd hcontra (by simp)
      · rename_i p hp
        have hps := (jwtDecode_some hp).1
        split at hcontra
        · exact absurd hcontra (by simp)
        · split at hcontra
          · exact absurd hcontra (by simp)
          · split at hcontra
            · exact absurd hcontra (by simp)
            · split at hcontra
              · exact absurd hcontra (by simp)
              · rename_i hcond
                rw [hps] at hcond
                exact hcond ⟨hs, he⟩

/-- C1 witness: the amended order at two concrete inputs — a blacklisted
expired token answered `tokenBlacklisted`, and a banned user's refresh token
at its exact expiry second not answered `userBanned`. -/
theorem c1_witness :
    (is_blacklisted_token (create_access_token "user@example.com" 0 100)
      (DB.mk [] [{ email := some "user@example.com", username := "user",
                   token := create_access_token "user@example.com" 0 100,
                   expire_access := 100, expire_refresh := 604800 }]) 200 = true) ∧
    (get_user (create_access_token "user@example.com" 0 100)
      (DB.mk [] [{ email := some "user@example.com", username := "user",
                   token := create_access_token "user@example.com" 0 100,
                   expire_access := 100, expire_refresh := 604800 }]) "access_token" 200 =
      (.error .tokenBlacklisted,
        DB.mk [] [{ email := some "user@example.com", username := "user",
                    token := create_access_token "user@example.com" 0 100,
                    expire_access := 100, expire_refresh := 604800 }])) ∧
    ((create_refresh_token 7 "banned@example.com" 0 none).payload.scope =
      "refresh_token") ∧
    ((create_refresh_token 7 "banned@example.com" 0 none).payload.exp ≤ 604800) ∧
    (get_user (create_refresh_token 7 "banned@example.com" 0 none)
      (DB.mk [{ email := some "banned@example.com", username := "banned",
                hashed_pwd := "h", loggedin := true, email_confirmed := true,
                is_banned := true }] []) "refresh_token" 604800 ≠
      (.error .userBanned,
        DB.mk [{ email := some "banned@example.com", username := "banned",
                 hashed_pwd := "h", loggedin := true, email_confirmed := true,
                 is_banned := true }] [])) :=
  ⟨by decide,
   (c1_resolver_order_amended (create_access_token "user@example.com" 0 100)
     (DB.mk [] [{ email := some "user@example.com", username := "user",
                  token := create_access_token "user@example.com" 0 100,
                  expire_access := 100, expire_refresh := 604800 }])
     "access_token" 200).1 (by decide),
   by decide, by decide,
   (c1_resolver_order_amended (create_refresh_token 7 "banned@example.com" 0 none)
     (DB.mk [{ email := some "banned@example.com", username := "banned",
               hashed_pwd := "h", loggedin := true, email_confirmed := true,
               is_banned := true }] [])
     "refresh_token" 604800).2.2 (by decide) (by decide) _⟩

/-! ## C2: what the logout route actually does -/

/-- The user row used by the C2 scenario. -/
def c2User : UserRec :=
  { email := some "user@example.com", username := "user", hashed_pwd := "h",
    loggedin := true, email_confirmed := true, is_banned := false }

/-- Database before the C2 logout: the user logged in, no revocations. -/
def c2DB : DB := ⟨[c2User], []⟩

/-- Database after the C2 logout: `loggedin` cleared, blacklist untouched. -/
def c2DB' : DB := ⟨[{ c2User with loggedin := false }], []⟩

/-- The access token presented at the C2 logout. -/
def c2Tok : RawToken := create_access_token "user@example.com" 0 86400

/-- C2 counterexample: a successful logout with a valid access token leaves
the blacklist empty and `is_blacklisted_token` false for that token — no
Revocation Entry is inserted, refuting the claimed `revoke` call. -/
theorem c2_counterexample :
    (logout c2Tok c2DB 0).1 = .ok () ∧
    (logout c2Tok c2DB 0).2.blacklist = [] ∧
    is_blacklisted_token c2Tok (logout c2Tok c2DB 0).2 0 = false := by
  decide

/-- C2 amended: after a successful logout call with token T for identity U,
U's `loggedin` flag is false, but the blacklist is exactly the one before
the call — the route sets `loggedin = False` and never calls
`add_to_blacklist`, so T's revocation status is unchanged. -/
theorem c2_logout_amended (token : RawToken) (db : DB) (now : Int) (db' : DB)
    (h : logout token db now = (.ok (), db')) :
    db'.blacklist = db.blacklist ∧
    is_blacklisted_token token db' now = is_blacklisted_token token db now ∧
    ∀ sub, token.payload.sub = some sub →
      (db'.users.find? (fun u : UserRec => u.email = some sub)).map
        (fun u : UserRec => u.loggedin) = some false := by
  unfold logout at h
  split at h
  · exact absurd h (by simp)
  · rename_i db_user db₂ hgu
    obtain ⟨hdb2, sub, hsub, hfind, hmail⟩ := get_user_ok hgu
    split at h
    · rename_i email hmail2
      have hes : sub = email := by
        rw [hmail] at hmail2
        exact Option.some.inj hmail2
      rw [hes] at hfind
      have hdb' : db' = db₂.setLoggedin email false := (congrArg Prod.snd h).symm
      rw [hdb2] at hdb'
      subst hdb'
      refine ⟨rfl, rfl, ?_⟩
      intro sub' hsub'
      have hss : sub' = email := by
        rw [hsub] at hsub'
        exact (Option.some.inj hsub').symm.trans hes
      rw [hss]
      simp only [DB.setLoggedin]
      rw [find?_updateFirst_self (fun u : UserRec => u.email = some email)
        (fun u => { u with loggedin := false }) db.users (fun x hx => hx), hfind]
      rfl
    · rename_i hmail2
      rw [hmail] at hmail2
      cases hmail2

/-- C2 witness: the amended statement at the concrete logout scenario. -/
theorem c2_witness :
    logout c2Tok c2DB 0 = (.ok (), c2DB') ∧
    c2DB'.blacklist = c2DB.blacklist ∧
    (c2DB'.users.find? (fun u : UserRec => u.email = some "user@example.com")).map
      (fun u : UserRec => u.loggedin) = some false :=
  ⟨by decide,
   (c2_logout_amended c2Tok c2DB 0 c2DB' (by decide)).1,
   (c2_logout_amended c2Tok c2DB 0 c2DB' (by decide)).2.2 "user@example.com" rfl⟩

/-! ## C4: expired refresh token at the refresh endpoint -/

/-- Database for the C4 scenario: the subject logged in, nothing revoked. -/
def c4DB : DB :=
  ⟨[{ email := some "user@example.com", username := "user", hashed_pwd := "h",
      loggedin := true, email_confirmed := true, is_banned := false }], []⟩

/-- C4: at `t0 + 7 days + 1 second` the refresh token issued at `t0` with a
7-day lifetime is rejected by `jwt.decode` itself, so the resolver answers
`invalidToken` (401 "Invalid token: ...") — not the `tokenExpired`
(SessionExpired) outcome the dead refresh-expiry branch would produce — and
the returned database still has the user logged in. -/
theorem c4_expired_refresh_observed :
    create_refresh_token 7 "user@example.com" 0 none =
      create_token "user@example.com" 0 "refresh_token" 604800 ∧
    get_user (create_refresh_token 7 "user@example.com" 0 none) c4DB
        "refresh_token" 604801 =
      (.error .invalidToken, c4DB) ∧
    c4DB.users.map (fun u : UserRec => u.loggedin) = [true] := by
  decide

/-! ## C5: what the scope check actually rejects -/

/-- The user row used by the C5 scenario. -/
def c5User : UserRec :=
  { email := some "user@example.com", username := "user", hashed_pwd := "h",
    loggedin := true, email_confirmed := true, is_banned := false }

/-- Database for the C5 scenario. -/
def c5DB : DB := ⟨[c5User], []⟩

/-- C5 counterexample: an email token (scope claim `email_token`, signed
with the access/email pair) presented where access scope is required is not
rejected with `invalidScope` — it authenticates, because the code only
checks membership of the scope claim in the full three-scope list. -/
theorem c5_counterexample :
    (create_email_token "user@example.com" 0 43200).payload.scope = "email_token" ∧
    get_user (create_email_token "user@example.com" 0 43200) c5DB "access_token" 0 =
      (.ok c5User, c5DB) := by
  decide

/-- C5 amended: the resolver fails with `invalidScope` exactly for decodable,
non-revoked tokens whose scope claim lies outside
{access_token, refresh_token, email_token}; a token carrying any of the
three known scope strings is never answered with `invalidScope`, even when
it differs from the scope the resolving context requires. -/
theorem c5_scope_check_amended (token : RawToken) (db : DB) (scope : String)
    (now : Int) :
    (∀ p : Payload, is_blacklisted_token token db now = false →
      jwtDecode token (keyFor scope) now = some p →
      ¬ (p.scope = "access_token" ∨ p.scope = "refresh_token" ∨
         p.scope = "email_token") →
      get_user token db scope now = (.error .invalidScope, db)) ∧
    ((token.payload.scope = "access_token" ∨ token.payload.scope = "refresh_token" ∨
      token.payload.scope = "email_token") →
      ∀ db', get_user token db scope now ≠ (.error .invalidScope, db')) := by
  constructor
  · intro p hbl hdec hbad
    unfold get_user
    rw [hbl, if_neg (by simp)]
    split
    · rename_i heq
      rw [hdec] at heq
      cases heq
    · rename_i q heq
      rw [hdec] at heq
      injection heq with heq
      subst heq
      rw [if_pos hbad]
  · intro hgood db' hcontra
    unfold get_user at hcontra
    split at hcontra
    · exact absurd hcontra (by simp)
    · split at hcontra
      · exact absurd hcontra (by simp)
      · rename_i p hp
        have hps := (jwtDecode_some hp).1
        split at hcontra
        · rename_i hcond
          rw [hps] at hcond
          exact hcond hgood
        · split at hcontra
          · exact absurd hcontra (by simp)
          · split at hcontra
            · exact absurd hcontra (by simp)
            · split at hcontra
              · exact absurd hcontra (by simp)
              · split at hcontra
                · exact absurd hcontra (by simp)
                · split at hcontra
                  · exact absurd hcontra (by simp)
                  · exact absurd hcontra (by simp)

/-- C5 witness: a decodable token with unknown scope claim `banana` is
rejected with `invalidScope`, and the concrete email token of the
counterexample scenario is never answered `invalidScope` under access
scope. -/
theorem c5_witness :
    (is_blacklisted_token (create_token "user@example.com" 0 "banana" 100) c5DB 0 =
      false) ∧
    (jwtDecode (create_token "user@example.com" 0 "banana" 100)
      (keyFor "refresh_token") 0 =
      some { sub := some "user@example.com", iat := 0, exp := 100, scope := "banana" }) ∧
    (get_user (create_token "user@example.com" 0 "banana" 100) c5DB "refresh_token" 0 =
      (.error .invalidScope, c5DB)) ∧
    (get_user (create_email_token "user@example.com" 0 43200) c5DB "access_token" 0 ≠
      (.error .invalidScope, c5DB)) :=
  ⟨by decide, by decide,
   (c5_scope_check_amended (create_token "user@example.com" 0 "banana" 100) c5DB
     "refresh_token" 0).1
     { sub := some "user@example.com", iat := 0, exp := 100, scope := "banana" }
     (by decide) (by decide) (by decide),
   (c5_scope_check_amended (create_email_token "user@example.com" 0 43200) c5DB
     "access_token" 0).2 (Or.inr (Or.inr rfl)) c5DB⟩

/-! ## C6: double revocation -/

/-- The access token revoked twice in the C6 scenario. -/
def c6Tok : RawToken := create_access_token "user@example.com" 0 86400

/-- Registry state after the first C6 revocation. -/
def c6DB' : DB :=
  ⟨[], [{ email := some "user@example.com", username := "user", token := c6Tok,
          expire_access := 86400, expire_refresh := 604800 }]⟩

/-- C6 counterexample: revoking the same raw token twice is not error-free —
the first call succeeds and the second raises a unique-constraint violation
on commit, because `add_to_blacklist` inserts without any duplicate check
into a table whose `token` column is unique. -/
theorem c6_counterexample :
    add_to_blacklist 7 c6Tok (some "user@example.com") "user" ⟨[], []⟩ 0 =
      .ok c6DB' ∧
    add_to_blacklist 7 c6Tok (some "user@example.com") "user" c6DB' 0 =
      .error .uniqueViolation := by
  decide

/-- C6 amended: after a successful revocation of a raw token, revoking the
same token again at the same time raises a uniqueness violation instead of
reporting already-revoked success; the registry still contains exactly one
Revocation Entry for that token. -/
theorem c6_revoke_not_idempotent (refresh_exp : Int) (token : RawToken)
    (email : Option String) (username : String) (db db' : DB) (now : Int)
    (h : add_to_blacklist refresh_exp token email username db now = .ok db') :
    add_to_blacklist refresh_exp token email username db' now =
      .error .uniqueViolation ∧
    (db'.blacklist.filter (fun e : BlackListRec => e.token = token)).length = 1 := by
  unfold add_to_blacklist at h
  split at h
  · exact absurd h (by simp)
  · rename_i p hp
    split at h
    · exact absurd h (by simp)
    · rename_i hdup
      have hdb' := Except.ok.inj h
      have hnone : db.blacklist.find? (fun e : BlackListRec => e.token = token) =
          none := Option.not_isSome_iff_eq_none.mp hdup
      have hbl' : db'.blacklist = db.blacklist ++
          [{ email := email, username := username, token := token,
             expire_access := p.exp,
             expire_refresh := p.iat + refresh_exp * 86400 }] :=
        (congrArg DB.blacklist hdb').symm
      constructor
      · unfold add_to_blacklist
        split
        · rename_i heq
          rw [hp] at heq
          cases heq
        · rename_i q heq
          rw [hp] at heq
          injection heq with heq
          subst heq
          have hsome : (db'.blacklist.find?
              (fun e : BlackListRec => e.token = token)).isSome = true := by
            rw [hbl']
            exact List.find?_isSome.mpr
              ⟨_, List.mem_append_right _ (List.mem_singleton.mpr rfl), by simp⟩
          rw [if_pos hsome]
      · rw [hbl', List.filter_append]
        have hfilter : db.blacklist.filter
            (fun e : BlackListRec => e.token = token) = [] := by
          rw [List.filter_eq_nil_iff]
          intro e he
          have hne := List.find?_eq_none.mp hnone e he
          simpa using hne
        rw [hfilter]
        simp

/-- C6 witness: the amended statement at the concrete double-revocation
scenario. -/
theorem c6_witness :
    add_to_blacklist 7 c6Tok (some "user@example.com") "user" ⟨[], []⟩ 0 =
      .ok c6DB' ∧
    add_to_blacklist 7 c6Tok (some "user@example.com") "user" c6DB' 0 =
      .error .uniqueViolation ∧
    (c6DB'.blacklist.filter (fun e : BlackListRec => e.token = c6Tok)).length = 1 :=
  ⟨by decide,
   (c6_revoke_not_idempotent 7 c6Tok (some "user@example.com") "user" ⟨[], []⟩
     c6DB' 0 (by decide)).1,
   (c6_revoke_not_idempotent 7 c6Tok (some "user@example.com") "user" ⟨[], []⟩
     c6DB' 0 (by decide)).2⟩

/-! ## C9: the login route's token issuance -/

/-- C9: every login request — including one whose credentials would pass
every check — crashes at the very first statement of the route, the user
lookup, with `AttributeError` (`.scalars()` called on the un-awaited
coroutine returned by `db.execute(...)`), leaving the database unchanged:
no `issuedAt` is captured, no Token Factory call is reached, `loggedin` is
never set to true and no bearer response is produced. -/
theorem c9_login_crashes_before_issuing (email password : String) (db : DB) :
    login email password db = (.error .attributeErrorUnawaitedCoroutine, db) ∧
    (login email password db).1 ≠ .ok () :=
  ⟨rfl, fun h => Except.noConfusion h⟩

/-- C9 witness: a concrete login attempt — the credentials match a
confirmed user — still aborts at the lookup with the database unchanged. -/
theorem c9_witness :
    login "user@example.com" "pw"
        (DB.mk [{ email := some "user@example.com", username := "user",
                  hashed_pwd := "pw", loggedin := false, email_confirmed := true,
                  is_banned := false }] []) =
      (.error .attributeErrorUnawaitedCoroutine,
        DB.mk [{ email := some "user@example.com", username := "user",
                 hashed_pwd := "pw", loggedin := false, email_confirmed := true,
                 is_banned := false }] []) ∧
    (login "user@example.com" "pw"
        (DB.mk [{ email := some "user@example.com", username := "user",
                  hashed_pwd := "pw", loggedin := false, email_confirmed := true,
                  is_banned := false }] [])).1 ≠ .ok () :=
  c9_login_crashes_before_issuing "user@example.com" "pw"
    (DB.mk [{ email := some "user@example.com", username := "user",
              hashed_pwd := "pw", loggedin := false, email_confirmed := true,
              is_banned := false }] [])

end PhotoShare
